import Mathlib

/-!
Verification of the ItemEditor Qt6 build-orchestration scripts
(`build_linux.py`, `build_qt6_project.py`, `build_linux_all_in_one.py`,
`cmake_error_logger.py`, `setup_environment.py`).

The scripts are sequential fail-fast pipelines over blocking external-process
calls.  We embed the control flow shallowly: the builder state is an abstract
type `σ`, each pipeline step is a function `σ → StepOutcome σ` (the step
returns a boolean and the mutated state, or raises `KeyboardInterrupt`, or
raises some other exception), and the controllers chain the steps exactly as
the Python `if not step(): return False` cascades do.  The command executor is
embedded as a function of the behaviour of the spawned process.
-/

namespace ItemEditorBuild

/-- Outcome of invoking one pipeline step: the step returns a boolean together
with the mutated builder state, or it raises `KeyboardInterrupt`, or it raises
some other exception carrying the exception text. -/
inductive StepOutcome (σ : Type) where
  | ok (b : Bool) (s : σ)
  | keyboardInterrupt
  | exn (msg : String)
deriving DecidableEq

/-- Result of the `try:` body of a pipeline controller: either the cascade of
steps completed with a boolean result (the first `False` short-circuits), or a
`KeyboardInterrupt` escaped a step, or another exception escaped a step. -/
inductive PipelineResult (σ : Type) where
  | completed (b : Bool) (s : σ)
  | interrupted
  | raised (msg : String)
deriving DecidableEq

/-- Sequential fail-fast execution of a list of steps, as performed by the
`if not step(): return False` cascades of the builder scripts.  Returns the
controller result together with the trace of invoked step outcomes, in
invocation order: a step appears in the trace exactly when it was invoked. -/
def runSteps {σ : Type} : List (σ → StepOutcome σ) → σ → PipelineResult σ × List (StepOutcome σ)
  | [], s => (PipelineResult.completed true s, [])
  | f :: fs, s =>
    match f s with
    | StepOutcome.ok true s2 =>
      let r := runSteps fs s2
      (r.1, StepOutcome.ok true s2 :: r.2)
    | StepOutcome.ok false s2 =>
      (PipelineResult.completed false s2, [StepOutcome.ok false s2])
    | StepOutcome.keyboardInterrupt =>
      (PipelineResult.interrupted, [StepOutcome.keyboardInterrupt])
    | StepOutcome.exn m =>
      (PipelineResult.raised m, [StepOutcome.exn m])

/-- The boolean the controller hands back to its caller: the completed result,
and `False` for the `except KeyboardInterrupt` / `except Exception` handlers. -/
def pipelineBool {σ : Type} : PipelineResult σ → Bool
  | PipelineResult.completed b _ => b
  | PipelineResult.interrupted => false
  | PipelineResult.raised _ => false

/-- Drop leading whitespace characters from a character list. -/
def stripLeadingWs : List Char → List Char
  | [] => []
  | c :: cs => if c.isWhitespace then stripLeadingWs cs else c :: cs

/-- Python's `str.strip()`: remove whitespace from both ends of a string. -/
def pyStrip (s : String) : String :=
  String.mk (List.reverse (stripLeadingWs (List.reverse (stripLeadingWs s.data))))

/-- Behaviour of the external process spawned by `subprocess.run` inside a
command executor: it either runs to completion with an exit code and the texts
it wrote to standard output and standard error, or it exceeds the timeout
(`subprocess.TimeoutExpired`), or launching it fails with an exception whose
text is `str(e)`. -/
inductive ProcBehavior where
  | completes (returncode : Int) (stdout : String) (stderr : String)
  | timesOut
  | raisesExc (msg : String)
deriving DecidableEq

/-- Mode in which a log file is opened. -/
inductive FileMode where
  | append
  | write
deriving DecidableEq

/-- A `datetime.now()` instant as the scripts observe it: the
`strftime("%Y%m%d_%H%M%S")` rendering plus the microsecond field that the
rendering discards. -/
structure PyDatetime where
  formatted : String
  microsecond : Nat
deriving DecidableEq

namespace BuildLinux

/-- Build statistics dictionary of `LinuxQt6Builder` (`build_linux.py`). -/
structure BuildStats where
  system_packages_installed : Nat
  plugins_built : Nat
  plugins_failed : Nat
  main_app_built : Bool
  deployment_successful : Bool
  total_errors : Nat
  total_warnings : Nat
  qt6_version : String
deriving DecidableEq

/-- Initial statistics set in `LinuxQt6Builder.__init__`. -/
def initStats : BuildStats :=
  { system_packages_installed := 0
    plugins_built := 0
    plugins_failed := 0
    main_app_built := false
    deployment_successful := false
    total_errors := 0
    total_warnings := 0
    qt6_version := "Unknown" }

/-- `self.plugins` of `LinuxQt6Builder`. -/
def plugins : List String := ["PluginOne", "PluginTwo", "PluginThree"]

/-- Path of the main executable checked by `verify_build_artifacts`
(`self.build_dir / "src" / "ItemEditor"`, relative to the project dir). -/
def mainExePath : String := "build/src/ItemEditor"

/-- Path of a plugin library
(`self.build_dir / "plugins" / name / f"lib{name}.so"`). -/
def pluginLibPath (name : String) : String :=
  "build/plugins/" ++ name ++ "/lib" ++ name ++ ".so"

/-- `LinuxQt6Builder.run_command` (`build_linux.py`).  With `capture_output`
the executor returns `(returncode == 0, stdout.strip(), stderr.strip())`;
without it the output is not captured and both text slots are empty.  On
`subprocess.TimeoutExpired` it returns the synthetic timeout message, and on
any other exception it returns the exception text, always in the stderr slot
and always with a `False` success flag. -/
def LinuxQt6Builder.run_command (capture_output : Bool) (timeout : Nat)
    (behavior : ProcBehavior) : Bool × String × String :=
  match behavior with
  | ProcBehavior.completes rc out err =>
    if capture_output then ((rc == 0), pyStrip out, pyStrip err)
    else ((rc == 0), "", "")
  | ProcBehavior.timesOut =>
    (false, "", "Command timed out after " ++ toString timeout ++ " seconds")
  | ProcBehavior.raisesExc msg =>
    (false, "", msg)

/-- `LinuxQt6Builder.verify_build_artifacts` (`build_linux.py`).  Takes the
filesystem (presence of each path) and the current statistics; returns the
boolean result, the updated statistics, and the list of (path, found) rows
the function reported to the console. -/
def LinuxQt6Builder.verify_build_artifacts (fs : String → Bool) (stats : BuildStats) :
    Bool × BuildStats × List (String × Bool) :=
  if fs mainExePath then
    let rows := plugins.map (fun p => (pluginLibPath p, fs (pluginLibPath p)))
    let plugins_found := (plugins.filter (fun p => fs (pluginLibPath p))).length
    (true,
     { stats with
        plugins_built := plugins_found
        plugins_failed := plugins.length - plugins_found },
     (mainExePath, true) :: rows)
  else
    (false, stats, [(mainExePath, false)])

/-- One filesystem operation performed by `create_deployment_package`. -/
inductive DeployOp where
  | rmtreeDeploy
  | mkdirDeploy
  | copyMainExe
  | chmodMainExe
  | mkdirPluginDir
  | copyPlugin (name : String)
  | writeRunScript
  | chmodRunScript
deriving DecidableEq

/-- The operations attempted inside the `try:` block of
`create_deployment_package`, in program order: the copy of the main executable
(and its chmod) only when the built executable exists, the `plugins/`
directory creation, one copy per plugin library that exists, and the run
script creation and chmod. -/
def deployTryOps (fs : String → Bool) : List DeployOp :=
  (if fs mainExePath then [DeployOp.copyMainExe, DeployOp.chmodMainExe] else []) ++
  [DeployOp.mkdirPluginDir] ++
  plugins.filterMap
    (fun p => if fs (pluginLibPath p) then some (DeployOp.copyPlugin p) else none) ++
  [DeployOp.writeRunScript, DeployOp.chmodRunScript]

/-- Result of a Python call that either returns a value or lets an exception
propagate to the caller. -/
inductive PyOutcome (α : Type) where
  | ok (a : α)
  | raised
deriving DecidableEq

/-- `LinuxQt6Builder.create_deployment_package` (`build_linux.py`).  The
deploy-directory cleanup (`shutil.rmtree` when it exists, then `mkdir`) runs
before the `try:` block, so an exception there propagates.  Inside the block
the first raising operation is caught and the function returns `False` with
the statistics untouched; if nothing raises, `deployment_successful` is set
and the function returns `True`.  `raisesOn` tells which operations raise. -/
def LinuxQt6Builder.create_deployment_package (fs : String → Bool)
    (raisesOn : DeployOp → Bool) (deployDirExists : Bool) (stats : BuildStats) :
    PyOutcome (Bool × BuildStats) :=
  if deployDirExists && raisesOn DeployOp.rmtreeDeploy then PyOutcome.raised
  else if raisesOn DeployOp.mkdirDeploy then PyOutcome.raised
  else
    match (deployTryOps fs).find? raisesOn with
    | some _ => PyOutcome.ok (false, stats)
    | none => PyOutcome.ok (true, { stats with deployment_successful := true })

/-- The named pipeline steps of `LinuxQt6Builder.run_build_process`, as
abstract operations on the builder state. -/
structure LinuxSteps (σ : Type) where
  check_sudo_access : σ → StepOutcome σ
  update_package_lists : σ → StepOutcome σ
  install_system_packages : σ → StepOutcome σ
  setup_build_environment : σ → StepOutcome σ
  clean_build_directory : σ → StepOutcome σ
  configure_cmake : σ → StepOutcome σ
  build_project : σ → StepOutcome σ
  verify_build_artifacts : σ → StepOutcome σ
  create_deployment_package : σ → StepOutcome σ

/-- The order in which `run_build_process` invokes its steps. -/
def LinuxQt6Builder.stepList {σ : Type} (b : LinuxSteps σ) : List (σ → StepOutcome σ) :=
  [b.check_sudo_access, b.update_package_lists, b.install_system_packages,
   b.setup_build_environment, b.clean_build_directory, b.configure_cmake,
   b.build_project, b.verify_build_artifacts, b.create_deployment_package]

/-- `LinuxQt6Builder.run_build_process` (`build_linux.py`): the cascade of
`if not step(): return False` over the nine steps, inside a `try:` whose
`except KeyboardInterrupt` and `except Exception` handlers both return
`False`. -/
def LinuxQt6Builder.run_build_process {σ : Type} (b : LinuxSteps σ) (s : σ) : Bool :=
  pipelineBool (runSteps (LinuxQt6Builder.stepList b) s).1

/-- `main` of `build_linux.py`: runs the build process, prints the build
summary exactly once, then exits with code 0 on success and 1 otherwise.
Returns (number of summary invocations, process exit code). -/
def main {σ : Type} (b : LinuxSteps σ) (s : σ) : Nat × Nat :=
  (1, if LinuxQt6Builder.run_build_process b s then 0 else 1)

/-- Log file created by `LinuxQt6Builder.setup_logging` for the run starting
at instant `t`: `logs/build_linux_<YYYYMMDD_HHMMSS>.log`. -/
def logFileName (t : PyDatetime) : String :=
  "logs/build_linux_" ++ t.formatted ++ ".log"

/-- `logging.FileHandler(log_file, encoding="utf-8")` opens the log in the
default append mode. -/
def logFileMode : FileMode := FileMode.append

end BuildLinux

namespace BuildQt6Project

/-- `Qt6Builder.run_command` (`build_qt6_project.py`): always captures output,
uses a fixed 300-second timeout, returns `(returncode == 0, stdout.strip(),
stderr.strip())`, the synthetic message `"Command timed out"` on
`subprocess.TimeoutExpired`, and the exception text on any other exception. -/
def Qt6Builder.run_command (behavior : ProcBehavior) : Bool × String × String :=
  match behavior with
  | ProcBehavior.completes rc out err => ((rc == 0), pyStrip out, pyStrip err)
  | ProcBehavior.timesOut => (false, "", "Command timed out")
  | ProcBehavior.raisesExc msg => (false, "", msg)

/-- The deployment files checked by `Qt6Builder.verify_deployment`, relative
to the deployment directory. -/
def requiredFiles : List String :=
  ["ItemEditor.exe", "plugins/PluginOne.dll", "plugins/PluginTwo.dll",
   "plugins/PluginThree.dll"]

/-- `Qt6Builder.verify_deployment` (`build_qt6_project.py`): checks each of
the four required files, adds one (file, found) row per file to the
verification table, and returns `True` exactly when all files exist.  Returns
the boolean result together with the reported rows. -/
def Qt6Builder.verify_deployment (fs : String → Bool) : Bool × List (String × Bool) :=
  let rows := requiredFiles.map (fun p => (p, fs p))
  (rows.all (fun r => r.2), rows)

/-- The named pipeline steps of `Qt6Builder.run_build`. -/
structure Qt6Steps (σ : Type) where
  verify_prerequisites : σ → StepOutcome σ
  clean_previous_builds : σ → StepOutcome σ
  step1_build_plugins : σ → StepOutcome σ
  step2_build_main_app : σ → StepOutcome σ
  step3_deploy_application : σ → StepOutcome σ

/-- The order in which `Qt6Builder.run_build` invokes its steps. -/
def Qt6Builder.stepList {σ : Type} (b : Qt6Steps σ) : List (σ → StepOutcome σ) :=
  [b.verify_prerequisites, b.clean_previous_builds, b.step1_build_plugins,
   b.step2_build_main_app, b.step3_deploy_application]

/-- `Qt6Builder.run_build` (`build_qt6_project.py`): the step cascade inside a
`try:` whose `except KeyboardInterrupt` and `except Exception` handlers return
`False`, with `finally: self.show_build_summary()`.  Returns the boolean the
caller sees and the number of times the summary ran. -/
def Qt6Builder.run_build {σ : Type} (b : Qt6Steps σ) (s : σ) : Bool × Nat :=
  (pipelineBool (runSteps (Qt6Builder.stepList b) s).1, 1)

/-- `main` of `build_qt6_project.py`: runs the build and exits with code 0 on
success and 1 otherwise.  Returns (number of summary invocations, process
exit code). -/
def main {σ : Type} (b : Qt6Steps σ) (s : σ) : Nat × Nat :=
  let r := Qt6Builder.run_build b s
  (r.2, if r.1 then 0 else 1)

end BuildQt6Project

namespace BuildLinuxAllInOne

/-- `LinuxBuilder.run_command` (`build_linux_all_in_one.py`): always captures
output and behaves like the `build_qt6_project.py` executor, with a
configurable timeout and the synthetic message `"Command timed out"`. -/
def LinuxBuilder.run_command (timeout : Nat) (behavior : ProcBehavior) :
    Bool × String × String :=
  match behavior with
  | ProcBehavior.completes rc out err => ((rc == 0), pyStrip out, pyStrip err)
  | ProcBehavior.timesOut => (false, "", "Command timed out")
  | ProcBehavior.raisesExc msg => (false, "", msg)

/-- `LinuxBuilder.configure_cmake` (`build_linux_all_in_one.py`): first
configures with the "Unix Makefiles" generator; on failure it replaces the
generator argument with "Ninja" and runs the configure command a second time.
`runGen` gives the success of a configure invocation with a given generator;
the returned list is the trace of generators attempted, in order. -/
def LinuxBuilder.configure_cmake (runGen : String → Bool) : Bool × List String :=
  if runGen "Unix Makefiles" then (true, ["Unix Makefiles"])
  else if runGen "Ninja" then (true, ["Unix Makefiles", "Ninja"])
  else (false, ["Unix Makefiles", "Ninja"])

/-- The named pipeline steps of `LinuxBuilder.run_build`. -/
structure AllSteps (σ : Type) where
  verify_prerequisites : σ → StepOutcome σ
  install_system_packages : σ → StepOutcome σ
  verify_qt6_installation : σ → StepOutcome σ
  clean_previous_builds : σ → StepOutcome σ
  configure_cmake : σ → StepOutcome σ
  build_plugins : σ → StepOutcome σ
  build_main_application : σ → StepOutcome σ

/-- The order in which `LinuxBuilder.run_build` invokes its steps. -/
def LinuxBuilder.stepList {σ : Type} (b : AllSteps σ) : List (σ → StepOutcome σ) :=
  [b.verify_prerequisites, b.install_system_packages, b.verify_qt6_installation,
   b.clean_previous_builds, b.configure_cmake, b.build_plugins,
   b.build_main_application]

/-- `LinuxBuilder.run_build` (`build_linux_all_in_one.py`): the step cascade
inside a `try:` whose interrupt and exception handlers return `False`, with a
`finally:` that shows the build summary. -/
def LinuxBuilder.run_build {σ : Type} (b : AllSteps σ) (s : σ) : Bool :=
  pipelineBool (runSteps (LinuxBuilder.stepList b) s).1

end BuildLinuxAllInOne

namespace CmakeErrorLogger

/-- Log file created by `run_full_cmake_build_and_log_errors`
(`cmake_error_logger.py`): `logs/cmake_build_errors_<YYYYMMDD_HHMMSS>.log`. -/
def logFileName (t : PyDatetime) : String :=
  "logs/cmake_build_errors_" ++ t.formatted ++ ".log"

/-- `open(log_file, "w")` truncates: the log is opened in write mode. -/
def logFileMode : FileMode := FileMode.write

/-- The `subprocess.run` calls of `cmake_error_logger.py` pass no `timeout`
argument at all: there is no bound after which a command is abandoned. -/
def commandTimeout : Option Nat := none

end CmakeErrorLogger

namespace SetupEnvironment

/-- `UbuntuEnvironmentSetup.run_command` (`setup_environment.py`): identical
executor shape — captured, stripped output, `"Command timed out"` on timeout,
exception text otherwise. -/
def UbuntuEnvironmentSetup.run_command (timeout : Nat) (behavior : ProcBehavior) :
    Bool × String × String :=
  match behavior with
  | ProcBehavior.completes rc out err => ((rc == 0), pyStrip out, pyStrip err)
  | ProcBehavior.timesOut => (false, "", "Command timed out")
  | ProcBehavior.raisesExc msg => (false, "", msg)

/-- `pip_commands` tried by `install_python_rich`. -/
def pip_commands : List String := ["pip3", "pip"]

/-- First loop of `install_python_rich`: for each pip command, run
`<cmd> install rich`; on success verify the import, returning the command
that worked; on install failure or import failure move on to the next
command.  Returns the successful command (if any) and the trace of attempts
as (pip command, used `--user` flag) pairs. -/
def tryPipPlain (cs : List String) (runPip : String → Bool → Bool) (importOk : Bool) :
    Option String × List (String × Bool) :=
  match cs with
  | [] => (none, [])
  | c :: rest =>
    if runPip c false then
      if importOk then (some c, [(c, false)])
      else
        let r := tryPipPlain rest runPip importOk
        (r.1, (c, false) :: r.2)
    else
      let r := tryPipPlain rest runPip importOk
      (r.1, (c, false) :: r.2)

/-- Second loop of `install_python_rich`: for each pip command, run
`<cmd> install --user rich`, returning on the first success without any
check that rich is then importable. -/
def tryPipUser (cs : List String) (runPip : String → Bool → Bool) :
    Option String × List (String × Bool) :=
  match cs with
  | [] => (none, [])
  | c :: rest =>
    if runPip c true then (some c, [(c, true)])
    else
      let r := tryPipUser rest runPip
      (r.1, (c, true) :: r.2)

/-- `UbuntuEnvironmentSetup.install_python_rich` (`setup_environment.py`):
returns immediately when rich is already importable; otherwise tries
`pip3 install rich` and `pip install rich` (each success checked by importing
rich), then falls back to the same commands with `--user`.  Returns the
boolean result and the trace of pip invocations attempted, in order. -/
def UbuntuEnvironmentSetup.install_python_rich (richAvailable : Bool)
    (runPip : String → Bool → Bool) (importOk : Bool) : Bool × List (String × Bool) :=
  if richAvailable then (true, [])
  else
    match tryPipPlain pip_commands runPip importOk with
    | (some _, tr) => (true, tr)
    | (none, tr1) =>
      match tryPipUser pip_commands runPip with
      | (some _, tr2) => (true, tr1 ++ tr2)
      | (none, tr2) => (false, tr1 ++ tr2)

end SetupEnvironment

/-- All artifact paths `verify_build_artifacts` is interested in: the main
executable and the three plugin libraries. -/
def BuildLinux.artifactPaths : List String :=
  BuildLinux.mainExePath :: BuildLinux.plugins.map BuildLinux.pluginLibPath

/-- Concrete `build_linux.py` step set exercising the pipeline theorems: the
sudo check succeeds and the package-list update fails. -/
def demoLinuxSteps : BuildLinux.LinuxSteps Nat :=
  { check_sudo_access := fun s => StepOutcome.ok true (s + 1)
    update_package_lists := fun s => StepOutcome.ok false s
    install_system_packages := fun s => StepOutcome.ok true s
    setup_build_environment := fun s => StepOutcome.ok true s
    clean_build_directory := fun s => StepOutcome.ok true s
    configure_cmake := fun s => StepOutcome.ok true s
    build_project := fun s => StepOutcome.ok true s
    verify_build_artifacts := fun s => StepOutcome.ok true s
    create_deployment_package := fun s => StepOutcome.ok true s }

/-- Concrete `build_linux_all_in_one.py` step set in which every step
succeeds. -/
def demoAllSteps : BuildLinuxAllInOne.AllSteps Nat :=
  { verify_prerequisites := fun s => StepOutcome.ok true s
    install_system_packages := fun s => StepOutcome.ok true s
    verify_qt6_installation := fun s => StepOutcome.ok true s
    clean_previous_builds := fun s => StepOutcome.ok true s
    configure_cmake := fun s => StepOutcome.ok true s
    build_plugins := fun s => StepOutcome.ok true s
    build_main_application := fun s => StepOutcome.ok true s }

/-- Concrete `build_qt6_project.py` step set in which the user interrupts the
build during the plugin step. -/
def demoQt6InterruptSteps : BuildQt6Project.Qt6Steps Nat :=
  { verify_prerequisites := fun s => StepOutcome.ok true s
    clean_previous_builds := fun s => StepOutcome.ok true s
    step1_build_plugins := fun _ => StepOutcome.keyboardInterrupt
    step2_build_main_app := fun s => StepOutcome.ok true s
    step3_deploy_application := fun s => StepOutcome.ok true s }

/-- Concrete `build_linux.py` step set in which an unhandled exception escapes
the CMake configuration step. -/
def demoLinuxExnSteps : BuildLinux.LinuxSteps Nat :=
  { check_sudo_access := fun s => StepOutcome.ok true s
    update_package_lists := fun s => StepOutcome.ok true s
    install_system_packages := fun s => StepOutcome.ok true s
    setup_build_environment := fun s => StepOutcome.ok true s
    clean_build_directory := fun s => StepOutcome.ok true s
    configure_cmake := fun _ => StepOutcome.exn "unexpected error"
    build_project := fun s => StepOutcome.ok true s
    verify_build_artifacts := fun s => StepOutcome.ok true s
    create_deployment_package := fun s => StepOutcome.ok true s }

/-- Filesystem in which every path exists except the built main executable. -/
def fsAllButMainExe : String → Bool := fun p => !(p == BuildLinux.mainExePath)

/-- Filesystem in which every path exists except the built PluginTwo
library. -/
def fsBuildMissingPluginTwo : String → Bool :=
  fun p => !(p == BuildLinux.pluginLibPath "PluginTwo")

/-- Deployment directory in which every required file exists except the
PluginTwo library. -/
def fsDeployMissingPluginTwo : String → Bool :=
  fun p => !(p == "plugins/PluginTwo.dll")

/-- Empty filesystem: no artifact exists. -/
def fsNothing : String → Bool := fun _ => false

/-- Full filesystem: every artifact exists. -/
def fsEverything : String → Bool := fun _ => true

/-- Deployment-operation oracle under which no filesystem operation raises. -/
def raisesNothing : BuildLinux.DeployOp → Bool := fun _ => false

/-- CMake-configure oracle under which the first generator succeeds. -/
def runGenFirstOk : String → Bool := fun g => g == "Unix Makefiles"

/-- Two distinct `datetime.now()` instants within the same wall-clock
second. -/
def tSameSecondA : PyDatetime := { formatted := "20240101_120000", microsecond := 100000 }

/-- A later instant in the same second as `tSameSecondA`. -/
def tSameSecondB : PyDatetime := { formatted := "20240101_120000", microsecond := 900000 }

/-- An instant one second after `tSameSecondA`. -/
def tNextSecond : PyDatetime := { formatted := "20240101_120001", microsecond := 0 }

theorem runSteps_nil {σ : Type} (s : σ) :
    runSteps ([] : List (σ → StepOutcome σ)) s = (PipelineResult.completed true s, []) := rfl

theorem runSteps_cons_true {σ : Type} (f : σ → StepOutcome σ) (fs : List (σ → StepOutcome σ))
    (s s2 : σ) (hf : f s = StepOutcome.ok true s2) :
    runSteps (f :: fs) s = ((runSteps fs s2).1, StepOutcome.ok true s2 :: (runSteps fs s2).2) := by
  simp [runSteps, hf]

theorem runSteps_cons_false {σ : Type} (f : σ → StepOutcome σ) (fs : List (σ → StepOutcome σ))
    (s s2 : σ) (hf : f s = StepOutcome.ok false s2) :
    runSteps (f :: fs) s = (PipelineResult.completed false s2, [StepOutcome.ok false s2]) := by
  simp [runSteps, hf]

theorem runSteps_cons_interrupt {σ : Type} (f : σ → StepOutcome σ)
    (fs : List (σ → StepOutcome σ)) (s : σ) (hf : f s = StepOutcome.keyboardInterrupt) :
    runSteps (f :: fs) s = (PipelineResult.interrupted, [StepOutcome.keyboardInterrupt]) := by
  simp [runSteps, hf]

theorem runSteps_cons_exn {σ : Type} (f : σ → StepOutcome σ) (fs : List (σ → StepOutcome σ))
    (s : σ) (m : String) (hf : f s = StepOutcome.exn m) :
    runSteps (f :: fs) s = (PipelineResult.raised m, [StepOutcome.exn m]) := by
  simp [runSteps, hf]

/-- Each listed step is invoked at most once: the invocation trace is never
longer than the step list. -/
theorem runSteps_length_le {σ : Type} (steps : List (σ → StepOutcome σ)) (s : σ) :
    ((runSteps steps s).2).length ≤ steps.length := by
  induction steps generalizing s with
  | nil => simp [runSteps_nil]
  | cons f fs ih =>
    cases hf : f s with
    | ok b s2 =>
      cases b with
      | true =>
        rw [runSteps_cons_true f fs s s2 hf]
        simpa using ih s2
      | false =>
        rw [runSteps_cons_false f fs s s2 hf]
        simp
    | keyboardInterrupt =>
      rw [runSteps_cons_interrupt f fs s hf]
      simp
    | exn m =>
      rw [runSteps_cons_exn f fs s m hf]
      simp

/-- Fail-fast: if the step at position `k` of the trace returned `False`, the
pipeline stopped right there — exactly `k + 1` steps were invoked. -/
theorem runSteps_stop {σ : Type} (steps : List (σ → StepOutcome σ)) (s : σ)
    (k : Nat) (s2 : σ)
    (hk : ((runSteps steps s).2)[k]? = some (StepOutcome.ok false s2)) :
    ((runSteps steps s).2).length = k + 1 := by
  induction steps generalizing s k with
  | nil => simp [runSteps_nil] at hk
  | cons f fs ih =>
    cases hf : f s with
    | ok b st =>
      cases b with
      | true =>
        rw [runSteps_cons_true f fs s st hf] at hk ⊢
        cases k with
        | zero => simp at hk
        | succ k =>
          simp only [List.getElem?_cons_succ] at hk
          simp only [List.length_cons]
          exact congrArg Nat.succ (ih st k hk)
      | false =>
        rw [runSteps_cons_false f fs s st hf] at hk ⊢
        cases k with
        | zero => simp
        | succ k => simp at hk
    | keyboardInterrupt =>
      rw [runSteps_cons_interrupt f fs s hf] at hk ⊢
      cases k with
      | zero => simp at hk
      | succ k => simp at hk
    | exn m =>
      rw [runSteps_cons_exn f fs s m hf] at hk ⊢
      cases k with
      | zero => simp at hk
      | succ k => simp at hk

/-- The controller returns `True` exactly when every step in the list was
invoked and every invoked step returned `True`. -/
theorem runSteps_true_iff {σ : Type} (steps : List (σ → StepOutcome σ)) (s : σ) :
    pipelineBool (runSteps steps s).1 = true ↔
      ((runSteps steps s).2).length = steps.length ∧
      ∀ o ∈ (runSteps steps s).2, ∃ st, o = StepOutcome.ok true st := by
  induction steps generalizing s with
  | nil => simp [runSteps_nil, pipelineBool]
  | cons f fs ih =>
    cases hf : f s with
    | ok b st =>
      cases b with
      | true =>
        rw [runSteps_cons_true f fs s st hf]
        rw [show ((runSteps fs st).1, StepOutcome.ok true st :: (runSteps fs st).2).1
              = (runSteps fs st).1 from rfl]
        rw [ih st]
        constructor
        · rintro ⟨hlen, hall⟩
          refine ⟨by simp [hlen], ?_⟩
          intro o ho
          rcases List.mem_cons.mp ho with rfl | ho
          · exact ⟨st, rfl⟩
          · exact hall o ho
        · rintro ⟨hlen, hall⟩
          refine ⟨by simpa using hlen, ?_⟩
          intro o ho
          exact hall o (List.mem_cons_of_mem _ ho)
      | false =>
        rw [runSteps_cons_false f fs s st hf]
        simp [pipelineBool]
    | keyboardInterrupt =>
      rw [runSteps_cons_interrupt f fs s hf]
      simp [pipelineBool]
    | exn m =>
      rw [runSteps_cons_exn f fs s m hf]
      simp [pipelineBool]

/-- Checking a list of files against a filesystem in which exactly `m` is
absent produces a row list that flags exactly `m` as missing and every other
listed file as found. -/
theorem report_rows_exact (files : List String) (fs : String → Bool) (m : String)
    (hm : m ∈ files) (hmf : fs m = false)
    (hother : ∀ p ∈ files, p ≠ m → fs p = true) :
    ((m, false) ∈ files.map (fun p => (p, fs p))) ∧
    (∀ p ∈ files, p ≠ m → (p, true) ∈ files.map (fun p => (p, fs p))) ∧
    (∀ p bf, (p, bf) ∈ files.map (fun p => (p, fs p)) → (bf = false ↔ p = m)) := by
  refine ⟨?_, ?_, ?_⟩
  · have h := List.mem_map_of_mem (fun p => (p, fs p)) hm
    simpa [hmf] using h
  · intro p hp hne
    have h := List.mem_map_of_mem (fun p => (p, fs p)) hp
    simpa [hother p hp hne] using h
  · intro p bf hmem
    rcases List.mem_map.mp hmem with ⟨q, hq, hEq⟩
    have h1 : q = p := congrArg Prod.fst hEq
    have h2 : fs q = bf := congrArg Prod.snd hEq
    subst h1
    subst h2
    constructor
    · intro hfq
      by_contra hne
      have := hother q hq hne
      rw [this] at hfq
      cases hfq
    · intro hqm
      subst hqm
      exact hmf

/-- The plugin-library paths of the three plugins are pairwise distinct. -/
theorem pluginLibPath_injOn :
    ∀ p ∈ BuildLinux.plugins, ∀ q ∈ BuildLinux.plugins,
      BuildLinux.pluginLibPath p = BuildLinux.pluginLibPath q → p = q := by decide

/-- The main-executable path is not a plugin-library path. -/
theorem mainExePath_ne_pluginLib :
    ∀ q ∈ BuildLinux.plugins, BuildLinux.mainExePath ≠ BuildLinux.pluginLibPath q := by decide

/-- When the main executable exists, the rows reported by
`verify_build_artifacts` are exactly one (path, present) row per expected
artifact path. -/
theorem verify_report_eq (g : String → Bool) (stats : BuildLinux.BuildStats)
    (hmain : g BuildLinux.mainExePath = true) :
    (BuildLinux.LinuxQt6Builder.verify_build_artifacts g stats).2.2 =
      BuildLinux.artifactPaths.map (fun x => (x, g x)) := by
  simp [BuildLinux.LinuxQt6Builder.verify_build_artifacts, hmain, BuildLinux.artifactPaths,
    List.map_map, Function.comp]

theorem tryPipPlain_length_le (cs : List String) (runPip : String → Bool → Bool)
    (importOk : Bool) :
    (SetupEnvironment.tryPipPlain cs runPip importOk).2.length ≤ cs.length := by
  induction cs with
  | nil => simp [SetupEnvironment.tryPipPlain]
  | cons c rest ih =>
    cases h : runPip c false with
    | true =>
      cases importOk with
      | true => simp [SetupEnvironment.tryPipPlain, h]
      | false =>
        simp only [SetupEnvironment.tryPipPlain, h, if_true, Bool.false_eq_true, if_false,
          List.length_cons]
        omega
    | false =>
      simp only [SetupEnvironment.tryPipPlain, h, Bool.false_eq_true, if_false, List.length_cons]
      omega

theorem tryPipUser_length_le (cs : List String) (runPip : String → Bool → Bool) :
    (SetupEnvironment.tryPipUser cs runPip).2.length ≤ cs.length := by
  induction cs with
  | nil => simp [SetupEnvironment.tryPipUser]
  | cons c rest ih =>
    cases h : runPip c true with
    | true => simp [SetupEnvironment.tryPipUser, h]
    | false =>
      simp only [SetupEnvironment.tryPipUser, h, Bool.false_eq_true, if_false, List.length_cons]
      omega

/-- Unfolding of `install_python_rich` when rich is not yet importable. -/
theorem install_python_rich_false_eq (runPip : String → Bool → Bool) (importOk : Bool) :
    SetupEnvironment.UbuntuEnvironmentSetup.install_python_rich false runPip importOk =
      match SetupEnvironment.tryPipPlain SetupEnvironment.pip_commands runPip importOk with
      | (some _, tr) => (true, tr)
      | (none, tr1) =>
        match SetupEnvironment.tryPipUser SetupEnvironment.pip_commands runPip with
        | (some _, tr2) => (true, tr1 ++ tr2)
        | (none, tr2) => (false, tr1 ++ tr2) := rfl

/-- Appending on both sides of a string is injective in the middle. -/
theorem string_sandwich_inj (a c x y : String) (h : a ++ x ++ c = a ++ y ++ c) : x = y := by
  have hd := congrArg String.data h
  simp only [String.data_append] at hd
  have h1 := List.append_cancel_right hd
  have h2 := List.append_cancel_left h1
  exact String.ext h2

/-- Claim C1: for every ordered sequence of pipeline steps run by the
controllers (`LinuxQt6Builder.run_build_process` in `build_linux.py` and
`LinuxBuilder.run_build` in `build_linux_all_in_one.py`), if step `k` returns
`False` then no step `k+1..n` is ever invoked, and the controller returns
`True` only if every step was invoked and returned `True`. -/
theorem C1_pipeline_fail_fast {σ τ : Type} (b : BuildLinux.LinuxSteps σ) (s : σ)
    (c : BuildLinuxAllInOne.AllSteps τ) (t : τ) :
    (∀ k s2, ((runSteps (BuildLinux.LinuxQt6Builder.stepList b) s).2)[k]? =
        some (StepOutcome.ok false s2) →
        ((runSteps (BuildLinux.LinuxQt6Builder.stepList b) s).2).length = k + 1) ∧
    (BuildLinux.LinuxQt6Builder.run_build_process b s = true ↔
      ((runSteps (BuildLinux.LinuxQt6Builder.stepList b) s).2).length = 9 ∧
      ∀ o ∈ (runSteps (BuildLinux.LinuxQt6Builder.stepList b) s).2,
        ∃ st, o = StepOutcome.ok true st) ∧
    (∀ k t2, ((runSteps (BuildLinuxAllInOne.LinuxBuilder.stepList c) t).2)[k]? =
        some (StepOutcome.ok false t2) →
        ((runSteps (BuildLinuxAllInOne.LinuxBuilder.stepList c) t).2).length = k + 1) ∧
    (BuildLinuxAllInOne.LinuxBuilder.run_build c t = true ↔
      ((runSteps (BuildLinuxAllInOne.LinuxBuilder.stepList c) t).2).length = 7 ∧
      ∀ o ∈ (runSteps (BuildLinuxAllInOne.LinuxBuilder.stepList c) t).2,
        ∃ st, o = StepOutcome.ok true st) := by
  refine ⟨fun k s2 hk => runSteps_stop _ s k s2 hk, ?_,
          fun k t2 hk => runSteps_stop _ t k t2 hk, ?_⟩
  · have h := runSteps_true_iff (BuildLinux.LinuxQt6Builder.stepList b) s
    have hlen : (BuildLinux.LinuxQt6Builder.stepList b).length = 9 := rfl
    rw [hlen] at h
    exact h
  · have h := runSteps_true_iff (BuildLinuxAllInOne.LinuxBuilder.stepList c) t
    have hlen : (BuildLinuxAllInOne.LinuxBuilder.stepList c).length = 7 := rfl
    rw [hlen] at h
    exact h

/-- Witness for C1 at a concrete step set: the sudo check succeeds, the
package-list update fails, and the pipeline invokes exactly two steps. -/
theorem C1_pipeline_fail_fast_witness :
    ((runSteps (BuildLinux.LinuxQt6Builder.stepList demoLinuxSteps) 0).2).length = 2 :=
  (C1_pipeline_fail_fast demoLinuxSteps 0 demoAllSteps 0).1 1 1 (by decide)

/-- Claim C2: a command exceeding its timeout always yields failure together
with a timeout-specific message in the stderr slot, never success — in every
executor that sets a timeout; the `cmake_error_logger.py` calls set no timeout
at all, so no command run there can exceed one. -/
theorem C2_timeout_is_failure (capture_output : Bool) (timeout : Nat) :
    BuildLinux.LinuxQt6Builder.run_command capture_output timeout ProcBehavior.timesOut =
      (false, "", "Command timed out after " ++ toString timeout ++ " seconds") ∧
    BuildQt6Project.Qt6Builder.run_command ProcBehavior.timesOut =
      (false, "", "Command timed out") ∧
    BuildLinuxAllInOne.LinuxBuilder.run_command timeout ProcBehavior.timesOut =
      (false, "", "Command timed out") ∧
    SetupEnvironment.UbuntuEnvironmentSetup.run_command timeout ProcBehavior.timesOut =
      (false, "", "Command timed out") ∧
    CmakeErrorLogger.commandTimeout = none :=
  ⟨rfl, rfl, rfl, rfl, rfl⟩

/-- Claim C3: the executors never raise — a non-zero exit code yields
`(False, stdout, stderr)` and a launch failure yields failure with the
exception text in the stderr slot. -/
theorem C3_executor_never_raises (timeout : Nat) (rc : Int) (out err msg : String) :
    (rc ≠ 0 →
      BuildLinux.LinuxQt6Builder.run_command true timeout (ProcBehavior.completes rc out err) =
        (false, pyStrip out, pyStrip err) ∧
      BuildLinux.LinuxQt6Builder.run_command false timeout (ProcBehavior.completes rc out err) =
        (false, "", "") ∧
      BuildQt6Project.Qt6Builder.run_command (ProcBehavior.completes rc out err) =
        (false, pyStrip out, pyStrip err)) ∧
    BuildLinux.LinuxQt6Builder.run_command true timeout (ProcBehavior.raisesExc msg) =
      (false, "", msg) ∧
    BuildLinux.LinuxQt6Builder.run_command false timeout (ProcBehavior.raisesExc msg) =
      (false, "", msg) ∧
    BuildQt6Project.Qt6Builder.run_command (ProcBehavior.raisesExc msg) = (false, "", msg) := by
  refine ⟨fun h => ?_, rfl, rfl, rfl⟩
  have hb : (rc == 0) = false := by simpa using h
  refine ⟨?_, ?_, ?_⟩ <;>
    simp [BuildLinux.LinuxQt6Builder.run_command, BuildQt6Project.Qt6Builder.run_command, hb]

/-- Witness for C3 at exit code 2. -/
theorem C3_executor_never_raises_witness :
    BuildLinux.LinuxQt6Builder.run_command true 300 (ProcBehavior.completes 2 " a " " b ") =
      (false, pyStrip " a ", pyStrip " b ") :=
  ((C3_executor_never_raises 300 2 " a " " b " "boom").1 (by decide)).1

/-- Claim C4 is false as stated: commands run without output capture (the
default of `LinuxQt6Builder.run_command` in `build_linux.py`, used for apt and
cmake invocations) return empty stdout/stderr texts no matter what the
process wrote.  Here the process wrote `" hello "` to stdout, whose trimmed
form is `"hello"`, yet the executor returns `""`. -/
theorem C4_roundtrip_counterexample :
    (BuildLinux.LinuxQt6Builder.run_command false 300
        (ProcBehavior.completes 0 " hello " "w")).2.1 = "" ∧
    pyStrip " hello " = "hello" ∧
    ("" : String) ≠ "hello" := by
  refine ⟨rfl, by decide, by decide⟩

/-- Claim C4 (amended): for every command run with output capture enabled
that runs to completion, the returned stdout and stderr equal exactly what
the process wrote, trimmed of surrounding whitespace; commands run without
capture return empty strings regardless of the process output. -/
theorem C4_roundtrip_amended (timeout : Nat) (rc : Int) (out err : String) :
    (BuildLinux.LinuxQt6Builder.run_command true timeout
        (ProcBehavior.completes rc out err)).2 = (pyStrip out, pyStrip err) ∧
    (BuildQt6Project.Qt6Builder.run_command (ProcBehavior.completes rc out err)).2 =
      (pyStrip out, pyStrip err) ∧
    (BuildLinuxAllInOne.LinuxBuilder.run_command timeout
        (ProcBehavior.completes rc out err)).2 = (pyStrip out, pyStrip err) ∧
    (SetupEnvironment.UbuntuEnvironmentSetup.run_command timeout
        (ProcBehavior.completes rc out err)).2 = (pyStrip out, pyStrip err) ∧
    (BuildLinux.LinuxQt6Builder.run_command false timeout
        (ProcBehavior.completes rc out err)).2 = ("", "") :=
  ⟨rfl, rfl, rfl, rfl, rfl⟩

/-- Claim C5 is false as stated for `verify_build_artifacts`
(`build_linux.py`): when the one absent artifact is the main executable, the
function returns after reporting only the executable — the three present
plugin libraries are never reported as found. -/
theorem C5_verifier_counterexample :
    fsAllButMainExe (BuildLinux.pluginLibPath "PluginOne") = true ∧
    fsAllButMainExe BuildLinux.mainExePath = false ∧
    ((BuildLinux.pluginLibPath "PluginOne", true) ∉
      (BuildLinux.LinuxQt6Builder.verify_build_artifacts fsAllButMainExe
        BuildLinux.initStats).2.2) := by
  refine ⟨by decide, by decide, by decide⟩

/-- Claim C5 (amended): `Qt6Builder.verify_deployment` behaves exactly as
claimed — with exactly one required file absent it reports exactly that file
as missing, every present file as found, and returns `False`.
`LinuxQt6Builder.verify_build_artifacts` behaves as claimed when the absent
artifact is a plugin library (and then still returns `True`); when the absent
artifact is the main executable it reports only the executable as missing and
returns `False` without reporting the present plugin libraries. -/
theorem C5_verifier_amended (fs : String → Bool) (m : String)
    (g : String → Bool) (q : String) (stats : BuildLinux.BuildStats) :
    (m ∈ BuildQt6Project.requiredFiles → fs m = false →
     (∀ p ∈ BuildQt6Project.requiredFiles, p ≠ m → fs p = true) →
      (BuildQt6Project.Qt6Builder.verify_deployment fs).1 = false ∧
      (m, false) ∈ (BuildQt6Project.Qt6Builder.verify_deployment fs).2 ∧
      (∀ p ∈ BuildQt6Project.requiredFiles, p ≠ m →
        (p, true) ∈ (BuildQt6Project.Qt6Builder.verify_deployment fs).2) ∧
      (∀ p bf, (p, bf) ∈ (BuildQt6Project.Qt6Builder.verify_deployment fs).2 →
        (bf = false ↔ p = m))) ∧
    (q ∈ BuildLinux.plugins → g BuildLinux.mainExePath = true →
     g (BuildLinux.pluginLibPath q) = false →
     (∀ p ∈ BuildLinux.plugins, p ≠ q → g (BuildLinux.pluginLibPath p) = true) →
      (BuildLinux.LinuxQt6Builder.verify_build_artifacts g stats).1 = true ∧
      (BuildLinux.mainExePath, true) ∈
        (BuildLinux.LinuxQt6Builder.verify_build_artifacts g stats).2.2 ∧
      (BuildLinux.pluginLibPath q, false) ∈
        (BuildLinux.LinuxQt6Builder.verify_build_artifacts g stats).2.2 ∧
      (∀ p ∈ BuildLinux.plugins, p ≠ q → (BuildLinux.pluginLibPath p, true) ∈
        (BuildLinux.LinuxQt6Builder.verify_build_artifacts g stats).2.2) ∧
      (∀ x bf, (x, bf) ∈ (BuildLinux.LinuxQt6Builder.verify_build_artifacts g stats).2.2 →
        (bf = false ↔ x = BuildLinux.pluginLibPath q))) ∧
    (g BuildLinux.mainExePath = false →
      (BuildLinux.LinuxQt6Builder.verify_build_artifacts g stats).1 = false ∧
      (BuildLinux.LinuxQt6Builder.verify_build_artifacts g stats).2.2 =
        [(BuildLinux.mainExePath, false)]) := by
  refine ⟨?_, ?_, ?_⟩
  · intro hm hmf hother
    have hrows := report_rows_exact BuildQt6Project.requiredFiles fs m hm hmf hother
    have hrep : (BuildQt6Project.Qt6Builder.verify_deployment fs).2 =
        BuildQt6Project.requiredFiles.map (fun p => (p, fs p)) := rfl
    refine ⟨?_, ?_, ?_, ?_⟩
    · rw [show (BuildQt6Project.Qt6Builder.verify_deployment fs).1 =
          (BuildQt6Project.requiredFiles.map (fun p => (p, fs p))).all (fun r => r.2) from rfl]
      rw [List.all_eq_false]
      exact ⟨(m, false), hrows.1, by simp⟩
    · rw [hrep]
      exact hrows.1
    · intro p hp hne
      rw [hrep]
      exact hrows.2.1 p hp hne
    · intro p bf hmem
      rw [hrep] at hmem
      exact hrows.2.2 p bf hmem
  · intro hq hmain hmiss hoth
    have hrep := verify_report_eq g stats hmain
    have hmem_art : BuildLinux.pluginLibPath q ∈ BuildLinux.artifactPaths :=
      List.mem_cons_of_mem _ (List.mem_map_of_mem _ hq)
    have hother_art : ∀ p ∈ BuildLinux.artifactPaths,
        p ≠ BuildLinux.pluginLibPath q → g p = true := by
      intro p hp hne
      rcases List.mem_cons.mp hp with rfl | hp2
      · exact hmain
      · rcases List.mem_map.mp hp2 with ⟨r, hr, rfl⟩
        apply hoth r hr
        intro hreq
        exact hne (congrArg BuildLinux.pluginLibPath hreq)
    have hrows := report_rows_exact BuildLinux.artifactPaths g
      (BuildLinux.pluginLibPath q) hmem_art hmiss hother_art
    refine ⟨?_, ?_, ?_, ?_, ?_⟩
    · simp [BuildLinux.LinuxQt6Builder.verify_build_artifacts, hmain]
    · rw [hrep]
      exact hrows.2.1 BuildLinux.mainExePath (List.mem_cons_self _ _)
        (mainExePath_ne_pluginLib q hq)
    · rw [hrep]
      exact hrows.1
    · intro p hp hne
      rw [hrep]
      exact hrows.2.1 (BuildLinux.pluginLibPath p)
        (List.mem_cons_of_mem _ (List.mem_map_of_mem _ hp))
        (fun h => hne (pluginLibPath_injOn p hp q hq h))
    · intro x bf hmem
      rw [hrep] at hmem
      exact hrows.2.2 x bf hmem
  · intro hmf
    constructor <;> simp [BuildLinux.LinuxQt6Builder.verify_build_artifacts, hmf]

/-- Witness for C5 with PluginTwo artifacts missing in each layout. -/
theorem C5_verifier_amended_witness :
    (BuildQt6Project.Qt6Builder.verify_deployment fsDeployMissingPluginTwo).1 = false ∧
    (BuildLinux.LinuxQt6Builder.verify_build_artifacts fsBuildMissingPluginTwo
      BuildLinux.initStats).1 = true :=
  ⟨((C5_verifier_amended fsDeployMissingPluginTwo "plugins/PluginTwo.dll"
      fsBuildMissingPluginTwo "PluginTwo" BuildLinux.initStats).1
      (by decide) (by decide) (by decide)).1,
   ((C5_verifier_amended fsDeployMissingPluginTwo "plugins/PluginTwo.dll"
      fsBuildMissingPluginTwo "PluginTwo" BuildLinux.initStats).2.1
      (by decide) (by decide) (by decide) (by decide)).1⟩

/-- Claim C6: whenever the pipeline is interrupted by the user or aborted by
an unhandled exception during any step, the final summary still runs exactly
once and the process exits with a non-zero code, in both
`build_qt6_project.py` (summary in the `finally:` of `run_build`) and
`build_linux.py` (summary in `main` after `run_build_process` returns). -/
theorem C6_summary_runs_once {σ τ : Type} (b : BuildQt6Project.Qt6Steps σ) (s : σ)
    (c : BuildLinux.LinuxSteps τ) (t : τ) :
    (BuildQt6Project.main b s).1 = 1 ∧
    ((runSteps (BuildQt6Project.Qt6Builder.stepList b) s).1 = PipelineResult.interrupted ∨
     (∃ m, (runSteps (BuildQt6Project.Qt6Builder.stepList b) s).1 = PipelineResult.raised m) →
      (BuildQt6Project.main b s).2 = 1) ∧
    (BuildLinux.main c t).1 = 1 ∧
    ((runSteps (BuildLinux.LinuxQt6Builder.stepList c) t).1 = PipelineResult.interrupted ∨
     (∃ m, (runSteps (BuildLinux.LinuxQt6Builder.stepList c) t).1 = PipelineResult.raised m) →
      (BuildLinux.main c t).2 = 1) := by
  refine ⟨rfl, ?_, rfl, ?_⟩
  · intro h
    have hb : pipelineBool (runSteps (BuildQt6Project.Qt6Builder.stepList b) s).1 = false := by
      rcases h with h | ⟨m, h⟩ <;> simp [h, pipelineBool]
    simp [BuildQt6Project.main, BuildQt6Project.Qt6Builder.run_build, hb]
  · intro h
    have hb : pipelineBool (runSteps (BuildLinux.LinuxQt6Builder.stepList c) t).1 = false := by
      rcases h with h | ⟨m, h⟩ <;> simp [h, pipelineBool]
    simp [BuildLinux.main, BuildLinux.LinuxQt6Builder.run_build_process, hb]

/-- Witness for C6: an interrupted plugin step and a configure step that
raises both lead to exit code 1. -/
theorem C6_summary_runs_once_witness :
    (BuildQt6Project.main demoQt6InterruptSteps 0).2 = 1 ∧
    (BuildLinux.main demoLinuxExnSteps 0).2 = 1 :=
  ⟨(C6_summary_runs_once demoQt6InterruptSteps 0 demoLinuxExnSteps 0).2.1
      (Or.inl (by decide)),
   (C6_summary_runs_once demoQt6InterruptSteps 0 demoLinuxExnSteps 0).2.2.2
      (Or.inr ⟨"unexpected error", by decide⟩)⟩

/-- Claim C7 is false as stated: after the "Unix Makefiles" configure attempt
fails, `LinuxBuilder.configure_cmake` (`build_linux_all_in_one.py`)
automatically issues a second configure attempt with the Ninja generator, and
after `pip3 install rich` fails, `install_python_rich`
(`setup_environment.py`) automatically issues up to three further pip
attempts. -/
theorem C7_no_retry_counterexample :
    (BuildLinuxAllInOne.LinuxBuilder.configure_cmake (fun _ => false)).2 =
      ["Unix Makefiles", "Ninja"] ∧
    (fun (_ : String) => false) "Unix Makefiles" = false ∧
    (SetupEnvironment.UbuntuEnvironmentSetup.install_python_rich false
        (fun _ _ => false) false).2 =
      [("pip3", false), ("pip", false), ("pip3", true), ("pip", true)] := by
  refine ⟨by decide, rfl, by decide⟩

/-- Claim C7 (amended): the pipeline controllers themselves never re-run a
step, but two operations retry internally — `configure_cmake` re-attempts
CMake configuration exactly once with the Ninja generator and only after the
Makefiles attempt failed, and `install_python_rich` issues at most four pip
invocations, a single one when the first succeeds and its import check
passes. -/
theorem C7_no_retry_amended {σ : Type} (b : BuildLinux.LinuxSteps σ) (s : σ)
    (runGen : String → Bool) (richAvailable : Bool)
    (runPip : String → Bool → Bool) (importOk : Bool) :
    ((runSteps (BuildLinux.LinuxQt6Builder.stepList b) s).2).length ≤ 9 ∧
    (BuildLinuxAllInOne.LinuxBuilder.configure_cmake runGen).2.length ≤ 2 ∧
    (runGen "Unix Makefiles" = true →
      (BuildLinuxAllInOne.LinuxBuilder.configure_cmake runGen).2 = ["Unix Makefiles"]) ∧
    (runGen "Unix Makefiles" = false →
      (BuildLinuxAllInOne.LinuxBuilder.configure_cmake runGen).2 =
        ["Unix Makefiles", "Ninja"]) ∧
    (SetupEnvironment.UbuntuEnvironmentSetup.install_python_rich richAvailable runPip
        importOk).2.length ≤ 4 ∧
    (richAvailable = true →
      (SetupEnvironment.UbuntuEnvironmentSetup.install_python_rich richAvailable runPip
        importOk).2 = []) ∧
    (runPip "pip3" false = true → importOk = true →
      (SetupEnvironment.UbuntuEnvironmentSetup.install_python_rich false runPip
        importOk).2 = [("pip3", false)]) := by
  refine ⟨?_, ?_, ?_, ?_, ?_, ?_, ?_⟩
  · have h := runSteps_length_le (BuildLinux.LinuxQt6Builder.stepList b) s
    have hlen : (BuildLinux.LinuxQt6Builder.stepList b).length = 9 := rfl
    omega
  · by_cases h1 : runGen "Unix Makefiles" <;>
      by_cases h2 : runGen "Ninja" <;>
      simp [BuildLinuxAllInOne.LinuxBuilder.configure_cmake, h1, h2]
  · intro h1
    simp [BuildLinuxAllInOne.LinuxBuilder.configure_cmake, h1]
  · intro h1
    by_cases h2 : runGen "Ninja" <;>
      simp [BuildLinuxAllInOne.LinuxBuilder.configure_cmake, h1, h2]
  · cases richAvailable with
    | true => simp [SetupEnvironment.UbuntuEnvironmentSetup.install_python_rich]
    | false =>
      have h1 := tryPipPlain_length_le SetupEnvironment.pip_commands runPip importOk
      have h2 := tryPipUser_length_le SetupEnvironment.pip_commands runPip
      have hp : SetupEnvironment.pip_commands.length = 2 := rfl
      rw [hp] at h1 h2
      rw [install_python_rich_false_eq]
      cases hplain : SetupEnvironment.tryPipPlain SetupEnvironment.pip_commands runPip importOk with
      | mk o1 tr1 =>
        rw [hplain] at h1
        have h1l : tr1.length ≤ 2 := h1
        cases o1 with
        | some c =>
          show tr1.length ≤ 4
          omega
        | none =>
          cases huser : SetupEnvironment.tryPipUser SetupEnvironment.pip_commands runPip with
          | mk o2 tr2 =>
            rw [huser] at h2
            have h2l : tr2.length ≤ 2 := h2
            cases o2 with
            | some c =>
              show (tr1 ++ tr2).length ≤ 4
              rw [List.length_append]
              omega
            | none =>
              show (tr1 ++ tr2).length ≤ 4
              rw [List.length_append]
              omega
  · intro h
    simp [SetupEnvironment.UbuntuEnvironmentSetup.install_python_rich, h]
  · intro h1 h2
    subst h2
    simp [SetupEnvironment.UbuntuEnvironmentSetup.install_python_rich,
      SetupEnvironment.tryPipPlain, SetupEnvironment.pip_commands, h1]

/-- Witness for C7: when the first generator succeeds only one configure
attempt happens, and when `pip3 install rich` succeeds with a working import
only one pip attempt happens. -/
theorem C7_no_retry_amended_witness :
    (BuildLinuxAllInOne.LinuxBuilder.configure_cmake runGenFirstOk).2 = ["Unix Makefiles"] ∧
    (SetupEnvironment.UbuntuEnvironmentSetup.install_python_rich false
        (fun _ _ => true) true).2 = [("pip3", false)] :=
  ⟨(C7_no_retry_amended demoLinuxSteps 0 runGenFirstOk false (fun _ _ => true) true).2.2.1
      (by decide),
   (C7_no_retry_amended demoLinuxSteps 0 runGenFirstOk false (fun _ _ => true) true).2.2.2.2.2.2
      rfl rfl⟩

/-- Claim C8 is false as stated: the log-file name is derived only from the
run start time rendered at one-second resolution, so two runs starting within
the same wall-clock second (here differing only in microseconds) get the very
same file name; `cmake_error_logger.py` opens that file with `open(f, "w")`,
so the second run truncates — overwrites — the first run's log. -/
theorem C8_log_files_counterexample :
    tSameSecondA ≠ tSameSecondB ∧
    CmakeErrorLogger.logFileName tSameSecondA = CmakeErrorLogger.logFileName tSameSecondB ∧
    BuildLinux.logFileName tSameSecondA = BuildLinux.logFileName tSameSecondB ∧
    CmakeErrorLogger.logFileMode = FileMode.write :=
  ⟨by decide, rfl, rfl, rfl⟩

/-- Claim C8 (amended): two runs whose start instants differ in their
`YYYYMMDD_HHMMSS` rendering always get distinct log files (for the builder
scripts and for `cmake_error_logger.py`), and the builder scripts open their
log through `logging.FileHandler` in append mode, so one run never truncates
another's file. -/
theorem C8_log_files_amended (t1 t2 : PyDatetime) :
    (t1.formatted ≠ t2.formatted →
      BuildLinux.logFileName t1 ≠ BuildLinux.logFileName t2 ∧
      CmakeErrorLogger.logFileName t1 ≠ CmakeErrorLogger.logFileName t2) ∧
    BuildLinux.logFileMode = FileMode.append := by
  refine ⟨fun hne => ⟨fun h => hne ?_, fun h => hne ?_⟩, rfl⟩
  · exact string_sandwich_inj "logs/build_linux_" ".log" t1.formatted t2.formatted h
  · exact string_sandwich_inj "logs/cmake_build_errors_" ".log" t1.formatted t2.formatted h

/-- Witness for C8 at two instants one second apart. -/
theorem C8_log_files_amended_witness :
    BuildLinux.logFileName tSameSecondA ≠ BuildLinux.logFileName tNextSecond :=
  ((C8_log_files_amended tSameSecondA tNextSecond).1 (by decide)).1

/-- Claim C9 is false as stated: when the main executable is absent,
`verify_build_artifacts` returns before touching the statistics, leaving
`plugins_built + plugins_failed` at its initial 0, not 3. -/
theorem C9_stats_counterexample :
    (BuildLinux.LinuxQt6Builder.verify_build_artifacts fsNothing BuildLinux.initStats).1 =
      false ∧
    (BuildLinux.LinuxQt6Builder.verify_build_artifacts fsNothing
        BuildLinux.initStats).2.1.plugins_built +
      (BuildLinux.LinuxQt6Builder.verify_build_artifacts fsNothing
        BuildLinux.initStats).2.1.plugins_failed = 0 ∧
    (0 : Nat) ≠ 3 := ⟨rfl, rfl, by decide⟩

/-- Claim C9 (amended): `verify_build_artifacts` returns `True` exactly when
the main executable exists, regardless of how many plugin libraries are
missing; on every run in which the executable exists it leaves
`plugins_built + plugins_failed = 3`, and when the executable is absent it
leaves the statistics unchanged. -/
theorem C9_stats_amended (g : String → Bool) (stats : BuildLinux.BuildStats) :
    ((BuildLinux.LinuxQt6Builder.verify_build_artifacts g stats).1 =
      g BuildLinux.mainExePath) ∧
    (g BuildLinux.mainExePath = true →
      (BuildLinux.LinuxQt6Builder.verify_build_artifacts g stats).2.1.plugins_built +
      (BuildLinux.LinuxQt6Builder.verify_build_artifacts g stats).2.1.plugins_failed = 3) ∧
    (g BuildLinux.mainExePath = false →
      (BuildLinux.LinuxQt6Builder.verify_build_artifacts g stats).2.1 = stats) := by
  refine ⟨?_, ?_, ?_⟩
  · cases hg : g BuildLinux.mainExePath <;>
      simp [BuildLinux.LinuxQt6Builder.verify_build_artifacts, hg]
  · intro hg
    have hle := List.length_filter_le (fun p => g (BuildLinux.pluginLibPath p))
      BuildLinux.plugins
    have hp : BuildLinux.plugins.length = 3 := rfl
    rw [hp] at hle
    have hb : (BuildLinux.LinuxQt6Builder.verify_build_artifacts g stats).2.1.plugins_built =
        (BuildLinux.plugins.filter (fun p => g (BuildLinux.pluginLibPath p))).length := by
      simp [BuildLinux.LinuxQt6Builder.verify_build_artifacts, hg]
    have hf : (BuildLinux.LinuxQt6Builder.verify_build_artifacts g stats).2.1.plugins_failed =
        BuildLinux.plugins.length -
          (BuildLinux.plugins.filter (fun p => g (BuildLinux.pluginLibPath p))).length := by
      simp [BuildLinux.LinuxQt6Builder.verify_build_artifacts, hg]
    rw [hb, hf, hp]
    omega
  · intro hg
    simp [BuildLinux.LinuxQt6Builder.verify_build_artifacts, hg]

/-- Witness for C9 on a full filesystem. -/
theorem C9_stats_amended_witness :
    (BuildLinux.LinuxQt6Builder.verify_build_artifacts fsEverything
        BuildLinux.initStats).2.1.plugins_built +
      (BuildLinux.LinuxQt6Builder.verify_build_artifacts fsEverything
        BuildLinux.initStats).2.1.plugins_failed = 3 :=
  (C9_stats_amended fsEverything BuildLinux.initStats).2.1 rfl

/-- Claim C10: `create_deployment_package` (`build_linux.py`) returns `True`
and marks `deployment_successful` on every filesystem state in which no
operation raises — even with the main executable and every plugin library
absent, since each copy is guarded by an existence check — and it returns
`False` only when one of the filesystem operations inside its `try:` block
raises an exception. -/
theorem C10_deployment_tolerant (fs : String → Bool)
    (raisesOn : BuildLinux.DeployOp → Bool) (deployDirExists : Bool)
    (stats : BuildLinux.BuildStats) :
    ((∀ op, raisesOn op = false) →
      BuildLinux.LinuxQt6Builder.create_deployment_package fs raisesOn deployDirExists stats =
        BuildLinux.PyOutcome.ok (true, { stats with deployment_successful := true })) ∧
    (∀ stats2,
      BuildLinux.LinuxQt6Builder.create_deployment_package fs raisesOn deployDirExists stats =
        BuildLinux.PyOutcome.ok (false, stats2) →
      ∃ op ∈ BuildLinux.deployTryOps fs, raisesOn op = true) := by
  constructor
  · intro hall
    have h1 : (deployDirExists && raisesOn BuildLinux.DeployOp.rmtreeDeploy) = false := by
      simp [hall]
    have h2 : raisesOn BuildLinux.DeployOp.mkdirDeploy = false := hall _
    have h3 : (BuildLinux.deployTryOps fs).find? raisesOn = none := by
      rw [List.find?_eq_none]
      intro x _
      simp [hall]
    simp [BuildLinux.LinuxQt6Builder.create_deployment_package, h1, h2, h3]
  · intro stats2 heq
    cases h1 : deployDirExists && raisesOn BuildLinux.DeployOp.rmtreeDeploy with
    | true =>
      simp [BuildLinux.LinuxQt6Builder.create_deployment_package, h1] at heq
    | false =>
      cases h2 : raisesOn BuildLinux.DeployOp.mkdirDeploy with
      | true =>
        simp [BuildLinux.LinuxQt6Builder.create_deployment_package, h1, h2] at heq
      | false =>
        cases hfind : (BuildLinux.deployTryOps fs).find? raisesOn with
        | none =>
          simp [BuildLinux.LinuxQt6Builder.create_deployment_package, h1, h2, hfind] at heq
        | some op =>
          exact ⟨op, List.mem_of_find?_eq_some hfind, List.find?_some hfind⟩

/-- Witness for C10 on an empty build tree with no raising operation. -/
theorem C10_deployment_tolerant_witness :
    BuildLinux.LinuxQt6Builder.create_deployment_package fsNothing raisesNothing true
        BuildLinux.initStats =
      BuildLinux.PyOutcome.ok
        (true, { BuildLinux.initStats with deployment_successful := true }) :=
  (C10_deployment_tolerant fsNothing raisesNothing true BuildLinux.initStats).1
    (fun _ => rfl)

end ItemEditorBuild
